import Mathlib

/-!
Verification development for the chord-block pipeline of
`src/d3blocks/chord/Chord.py`: the edge property resolver
(`set_edge_properties`), the payload assembler (`get_data_ready_for_d3`),
and the `show` transform that joins edge endpoints to catalog ids.

Modelling conventions:
* A pandas `DataFrame` becomes `Frame`: a row count `n` plus one optional
  list per column (a column is absent exactly when the field is `none`).
* Python floats become exact rationals (`ℚ`); `str()` on a number becomes
  `decStr`, which prints the finite decimal expansion (identical to
  Python's `repr` for the decimal literals that occur in this code).
* The node dictionary (`d3.node_properties` output) becomes `Catalog`,
  an association list with the insertion order of the Python dict;
  `dict.get` becomes `catGet`.
* Exceptions become `Except Err`; the `Err` constructors use the names of
  the spec's error taxonomy (section 7).  The Python code raises generic
  `Exception` / `KeyError` / `TypeError` at the corresponding sites.
-/

set_option maxRecDepth 100000

deriving instance DecidableEq for Except

namespace Chord

/-- Error taxonomy of the spec (section 7), mapped onto the Python failure
sites: `configurationError` = the `raise Exception` for a size-mismatched
per-row opacity (line 66); `schemaError` = `pre_processing` rejecting a frame
with a missing required column; `lookupError` = subscripting the result of a
failed `dict.get` on the node catalog (a `TypeError` in Python);
`keyError` = selecting a column that the frame does not have;
`indexError` = indexing a string/list out of range. -/
inductive Err where
  | configurationError
  | schemaError
  | lookupError
  | keyError
  | indexError
deriving DecidableEq, Repr

/-- One value of the node catalog: `{'id': .., 'desc': .., 'color': ..,
'opacity': ..}` as produced by `d3.node_properties`. -/
structure NodeProps where
  id : Nat
  desc : String
  color : String
  opacity : ℚ
deriving DecidableEq, Repr

/-- The node catalog (`nodes` / `labels` in the source): a Python dict from
node key to properties, modelled as an association list in insertion order. -/
abbrev Catalog := List (String × NodeProps)

/-- `labels.get(key)` on the catalog dict. -/
def catGet : Catalog → String → Option NodeProps
  | [], _ => none
  | (k, p) :: rest, key => if key = k then some p else catGet rest key

/-- A pandas DataFrame restricted to the columns this pipeline touches.
`n` is the row count (`df.shape[0]`); each column is `none` when absent.
`source_id` / `target_id` are the columns added by `show`,
`labels` is the helper column added by the color fallback branch. -/
structure Frame where
  n : Nat
  source : Option (List String)
  target : Option (List String)
  weight : Option (List ℚ)
  color : Option (List String)
  opacity : Option (List ℚ)
  labels : Option (List Nat)
  source_id : Option (List Nat)
  target_id : Option (List Nat)
deriving DecidableEq, Repr

/-- `df[s]` for the two string columns that `set_edge_properties` selects by
the name held in its `color`/`opacity` arguments. -/
def Frame.strCol (df : Frame) (s : String) : Option (List String) :=
  if s = "source" then df.source
  else if s = "target" then df.target
  else none

/-- The `color` argument of `set_edge_properties`: `None`, a string, or a
per-row list/array. -/
inductive ColorSpec where
  | null
  | str (s : String)
  | seq (l : List String)
deriving DecidableEq, Repr

/-- The `opacity` argument of `set_edge_properties`: `None`, a string, a
numeric scalar, or a per-row list/array. -/
inductive OpacSpec where
  | null
  | str (s : String)
  | num (q : ℚ)
  | seq (l : List ℚ)
deriving DecidableEq, Repr

/-- Map a fallible elementwise function over a list, failing if any element
fails — the shape of Python's `list(map(lambda x: d.get(x)['f'], col))`. -/
def mapO {α β : Type} (f : α → Option β) : List α → Option (List β)
  | [] => some []
  | a :: l =>
    match f a, mapO f l with
    | some b, some bs => some (b :: bs)
    | _, _ => none

/-- Map an `Except`-valued function over a list, propagating the first
error — the shape of a Python `for` loop whose body may raise. -/
def mapE {α β : Type} (f : α → Except Err β) : List α → Except Err (List β)
  | [] => .ok []
  | a :: l =>
    match f a, mapE f l with
    | .ok b, .ok bs => .ok (b :: bs)
    | .error e, _ => .error e
    | .ok _, .error e => .error e

/-- Pointwise zip of the five link columns read off by `df.iterrows()`. -/
def zip5 {α₁ α₂ α₃ α₄ α₅ : Type} :
    List α₁ → List α₂ → List α₃ → List α₄ → List α₅ →
    List (α₁ × α₂ × α₃ × α₄ × α₅)
  | a :: as, b :: bs, c :: cs, d :: ds, e :: es =>
    (a, b, c, d, e) :: zip5 as bs cs ds es
  | _, _, _, _, _ => []

/-- Fractional digits of the remainder `r/den` (`0 ≤ r < den`), most
significant first, with fuel bounding the number of emitted digits. -/
def fracDigits (r den : ℕ) : ℕ → String
  | 0 => ""
  | k + 1 =>
    if r = 0 then ""
    else toString ((r * 10) / den) ++ fracDigits ((r * 10) % den) den k

/-- Python's `str()` on the numbers stored in the frame: integers print with
no decimal point, non-integers print their decimal expansion (`str(0.5)`
is `"0.5"`).  Floats are modelled as exact rationals, so the expansion of
every value occurring in this code is finite. -/
def decStr (q : ℚ) : String :=
  if q.den = 1 then toString q.num
  else
    (if q.num < 0 then "-" else "") ++
      toString (q.num.natAbs / q.den) ++ "." ++
      fracDigits (q.num.natAbs % q.den) q.den 20

/-- Modelled from the spec: `utils.set_colors` (the ColorResolver) is not
among the sources.  Per the spec it "maps a categorical or continuous value
to a hex color, given a palette name", and the label-to-color mapping is a
function (the same label always yields the same color).  We model it as a
concrete deterministic palette-and-label hash into a hex string. -/
def set_colors (cmap : String) (label : String) : String :=
  "#" ++ String.mk (Nat.toDigits 16
    ((cmap ++ label).data.foldl (fun a c => (a * 31 + c.toNat) % 16777216) 7))

/-- Modelled from the spec: `utils.pre_processing` is not among the sources.
Per the spec it "normalizes the edge table: trims/validates required columns
(`source`, `target`, `weight` must exist), fails with `SchemaError` if any is
absent"; the content of present columns passes through unchanged. -/
def pre_processing (df : Frame) : Except Err Frame :=
  if df.source.isSome ∧ df.target.isSome ∧ df.weight.isSome then .ok df
  else .error .schemaError

/-- Does the `color` argument hold a per-row sequence whose length matches
the frame (`isinstance(color, (list, np.ndarray)) and len(color) == df.shape[0]`)? -/
def colorSeqMatch : ColorSpec → Nat → Bool
  | .seq l, n => l.length = n
  | _, _ => false

/-- Lines 81–85: the tail of the opacity `elif` chain.  When `color` is a
matching per-row sequence the branch only logs (no assignment); otherwise the
whole column is set to the default `0.8`. -/
def opacityElse (df : Frame) (color : ColorSpec) : Frame :=
  if colorSeqMatch color df.n then df
  else { df with opacity := some (List.replicate df.n (mkRat 8 10)) }

/-- Lines 74–76: `df['opacity'] = 0.8`, then for each catalog key overwrite
the rows whose `s`-endpoint equals that key with the node's opacity.
`df[s]` is only selected when the loop body runs, i.e. when the catalog is
non-empty. -/
def nodeOpacity (df : Frame) (s : String) (cat : Catalog) : Except Err Frame :=
  match df.strCol s with
  | some col =>
    .ok { df with opacity := some (cat.foldl
      (fun op kp => List.zipWith
        (fun sv o => if sv = kp.1 then kp.2.opacity else o) col op)
      (List.replicate df.n (mkRat 8 10))) }
  | none =>
    if cat.isEmpty then
      .ok { df with opacity := some (List.replicate df.n (mkRat 8 10)) }
    else .error .keyError

/-- Lines 65–85: the opacity `elif` chain of `set_edge_properties`.
Each match arm is the first `elif` condition that fires for that shape of
the `opacity` argument; every non-matching shape falls through to
`opacityElse` (lines 81–85). -/
def opacityStage (df : Frame) (color : ColorSpec) (opac : OpacSpec)
    (nodes : Option Catalog) : Except Err Frame :=
  match opac, nodes with
  | .seq l, _ =>
    if l.length ≠ df.n then .error .configurationError
    else .ok (opacityElse df color)
  | .null, _ =>
    if df.opacity.isSome then .ok df else .ok (opacityElse df color)
  | .str s, some cat =>
    if s = "source" ∨ s = "target" then nodeOpacity df s cat
    else .ok (opacityElse df color)
  | .str _, none => .ok (opacityElse df color)
  | .num q, _ => .ok { df with opacity := some (List.replicate df.n q) }

/-- Lines 98–100: `df['color'] = '#000000'`, then for each catalog key
overwrite the rows whose `s`-endpoint equals that key with the node's
color. -/
def nodeColor (df : Frame) (s : String) (cat : Catalog) : Except Err Frame :=
  match df.strCol s with
  | some col =>
    .ok { df with color := some (cat.foldl
      (fun cl kp => List.zipWith
        (fun sv c => if sv = kp.1 then kp.2.color else c) col cl)
      (List.replicate df.n "#000000")) }
  | none =>
    if cat.isEmpty then
      .ok { df with color := some (List.replicate df.n "#000000") }
    else .error .keyError

/-- Code-point lexicographic comparison of char lists — the string order
Python (and hence the pandas `groupby` sort) uses. -/
def charListLt : List Char → List Char → Bool
  | [], [] => false
  | [], _ :: _ => true
  | _ :: _, [] => false
  | c :: cs, d :: ds =>
    if c.toNat < d.toNat then true
    else if d.toNat < c.toNat then false
    else charListLt cs ds

/-- Strict string order by code point. -/
def strLtB (a b : String) : Bool :=
  charListLt a.data b.data

/-- Ascending pandas `groupby` key order on `(source, target)` pairs:
by source, ties broken by target. -/
def pairLe (a b : String × String) : Prop :=
  (strLtB a.1 b.1 || (a.1 == b.1 && !strLtB b.2 a.2)) = true

instance : DecidableRel pairLe := fun a b => Bool.decEq _ _

/-- Lines 108–112: the fallback color branch.  `groupby(['source','target'])`
yields the unique pairs in ascending order; `ismember(.., method='rows')`
labels every row with the position of its pair in that unique table; the
labels (as strings, `astype(str)`) are mapped through the ColorResolver. -/
def colorFallback (df : Frame) (cmap : String) : Except Err Frame :=
  match df.source, df.target with
  | some src, some tgt =>
    let pairs := src.zip tgt
    let uidf := List.insertionSort pairLe pairs.dedup
    let lbls := pairs.map fun p => uidf.indexOf p
    .ok { df with
      labels := some lbls,
      color := some (lbls.map fun l => set_colors cmap (toString l)) }
  | _, _ => .error .keyError

/-- Lines 91–112: the color `elif` chain of `set_edge_properties`.
Branch 1 (`color is None` with an existing column) only reads the column
into a local, leaving the frame unchanged.  `color[0]` on an empty string
raises (`indexError`).  A per-row sequence of matching length only logs
(lines 105–106, no assignment). -/
def colorStage (df : Frame) (color : ColorSpec) (nodes : Option Catalog)
    (cmap : String) : Except Err Frame :=
  match color, nodes with
  | .null, _ =>
    if df.color.isSome then .ok df else colorFallback df cmap
  | .str s, some cat =>
    if s = "source" ∨ s = "target" then nodeColor df s cat
    else if s.isEmpty then .error .indexError
    else if s.front = '#' ∧ s.length = 7 then
      .ok { df with color := some (List.replicate df.n s) }
    else colorFallback df cmap
  | .str s, none =>
    if s.isEmpty then .error .indexError
    else if s.front = '#' ∧ s.length = 7 then
      .ok { df with color := some (List.replicate df.n s) }
    else colorFallback df cmap
  | .seq l, _ =>
    if l.length = df.n then .ok df else colorFallback df cmap

/-- Lines 24–115: `set_edge_properties(df, color, opacity, cmap, nodes)` —
the opacity chain, then `pre_processing`, then the color chain. -/
def set_edge_properties (df : Frame) (color : ColorSpec) (opac : OpacSpec)
    (cmap : String) (nodes : Option Catalog) : Except Err Frame :=
  match opacityStage df color opac nodes with
  | .error e => .error e
  | .ok df1 =>
    match pre_processing df1 with
    | .error e => .error e
    | .ok df2 => colorStage df2 color nodes cmap

/-- Line 206: `list_id` — catalog ids of the source column followed by the
target column. -/
def listIdOf (df : Frame) (labels : Catalog) : Except Err (List Nat) :=
  match df.source, df.target with
  | some src, some tgt =>
    match mapO (fun x => (catGet labels x).map NodeProps.id) (src ++ tgt) with
    | some ids => .ok ids
    | none => .error .lookupError
  | _, _ => .error .keyError

/-- Line 207: `list_name` — catalog descriptions of the source column
followed by the target column. -/
def listNameOf (df : Frame) (labels : Catalog) : Except Err (List String) :=
  match df.source, df.target with
  | some src, some tgt =>
    match mapO (fun x => (catGet labels x).map NodeProps.desc) (src ++ tgt) with
    | some ns => .ok ns
    | _ => .error .lookupError
  | _, _ => .error .keyError

/-- The sorted unique values of `list_id` (`np.unique`). -/
def nodeIdOrder (ids : List Nat) : List Nat :=
  List.insertionSort (· ≤ ·) ids.dedup

/-- Line 208: `np.unique(list_id, return_index=True)` — for each unique id in
ascending order, the index of its first occurrence in `list_id`. -/
def uniqueIdx (ids : List Nat) : List Nat :=
  (nodeIdOrder ids).map fun v => ids.indexOf v

/-- Lines 213–214 for one loop index `i`: read `list_name[i]` and look the
*description* back up as a catalog key to fetch color and opacity. -/
def nodeEntryAt (labels : Catalog) (names : List String) (i : Nat) :
    Except Err (String × String × ℚ) :=
  match names[i]? with
  | none => .error .indexError
  | some name =>
    match catGet labels name with
    | none => .error .lookupError
    | some p => .ok (name, p.color, p.opacity)

/-- Lines 205–218: the `(name, color, opacity)` triples emitted by the node
loop, in loop order. -/
def nodeEntriesOf (df : Frame) (labels : Catalog) :
    Except Err (List (String × String × ℚ)) :=
  match listIdOf df labels with
  | .error e => .error e
  | .ok ids =>
    match listNameOf df labels with
    | .error e => .error e
    | .ok names => mapE (nodeEntryAt labels names) (uniqueIdx ids)

/-- Lines 215–218: the string appended for one node
(`'{"name":"..","color":"..","opacity":..}, '`). -/
def renderNodeEntry (e : String × String × ℚ) : String :=
  "\x7b\"name\":\"" ++ e.1 ++ "\"," ++ "\"color\":\"" ++ e.2.1 ++ "\"," ++
    "\"opacity\":" ++ decStr e.2.2 ++ "\x7d, "

/-- Line 225: the string appended for one link row, without the trailing
comma that the loop adds after each row. -/
def renderLink (sid tid : Nat) (w o : ℚ) (c : String) : String :=
  "\x7b\"source\":" ++ toString sid ++ ",\"target\":" ++ toString tid ++
    ",\"value\":" ++ decStr w ++ ",\"opacity\":" ++ decStr o ++
    ",\"color\":" ++ "\"" ++ c ++ "\"" ++ "\x7d"

/-- Lines 224–225: one link literal per row of the frame, in row order. -/
def linkLitsOf (df : Frame) : Except Err (List String) :=
  match df.source_id, df.target_id, df.weight, df.opacity, df.color with
  | some sids, some tids, some ws, some ops, some cls =>
    .ok ((zip5 sids tids ws ops cls).map
      fun t => renderLink t.1 t.2.1 t.2.2.1 t.2.2.2.1 t.2.2.2.2)
  | _, _, _, _, _ => .error .keyError

/-- Lines 211–226: assemble the payload string.  Every node contributes
`'{..}, '` and the node list closes with `X[:-1] + '],'` (dropping only the
final space); every link contributes `'{..},'` and the link list closes with
`X[:-1] + ']}'` (dropping the final comma). -/
def renderPayload (es : List (String × String × ℚ)) (ls : List String) :
    String :=
  ((("\x7b\"nodes\":[" ++ String.join (es.map renderNodeEntry)).dropRight 1
      ++ "],")
    ++ " \"links\":[" ++ String.join (ls.map (· ++ ","))).dropRight 1
  ++ "]\x7d"

/-- Lines 188–229: `get_data_ready_for_d3(df, labels)` — node section first
(ids, names, unique-id order, per-node catalog lookups by description), then
the link section from the frame's columns, then the string assembly. -/
def get_data_ready_for_d3 (df : Frame) (labels : Catalog) :
    Except Err String :=
  match nodeEntriesOf df labels with
  | .error e => .error e
  | .ok es =>
    match linkLitsOf df with
    | .error e => .error e
    | .ok ls => .ok (renderPayload es ls)

/-- Lines 118–146: `show(df, config, labels)` — resolve `source_id` then
`target_id` through the catalog (strict: a missing key fails, the spec's
`LookupError`), then build the payload.  The `write_html` call is the
external ArtifactWriter (out of the modelled core), so the model returns the
payload string that `show` hands to it. -/
def «show» (df : Frame) (labels : Catalog) : Except Err String :=
  match df.source, df.target with
  | some src, some tgt =>
    match mapO (fun x => (catGet labels x).map NodeProps.id) src with
    | none => .error .lookupError
    | some sids =>
      match mapO (fun x => (catGet labels x).map NodeProps.id) tgt with
      | none => .error .lookupError
      | some tids =>
        get_data_ready_for_d3
          { df with source_id := some sids, target_id := some tids } labels
  | _, _ => .error .keyError

/-! ### Concrete instances used by the claims -/

/-- The single-row edge table of claim C1:
`[{source:"A", target:"B", weight:3}]`. -/
def dfC1 : Frame := ⟨1, some ["A"], some ["B"], some [mkRat 3 1], none, none, none, none, none⟩

/-- The node catalog of claim C1. -/
def catC1 : Catalog :=
  [("A", ⟨0, "A", "#fff", mkRat 1 2⟩), ("B", ⟨1, "B", "#000", mkRat 9 10⟩)]

/-- Claim C1's pipeline: `set_edge_properties` with `color="source"`,
`opacity="source"`, followed by the assembly that `show` performs (id
resolution and `get_data_ready_for_d3`). -/
def pipelineC1 : Except Err String :=
  match set_edge_properties dfC1 (ColorSpec.str "source") (OpacSpec.str "source")
      "tab20" (some catC1) with
  | .ok d => «show» d catC1
  | .error e => .error e

/-- The payload claim C1 says the pipeline produces, character for
character (this definition follows the spec's words, for comparison with
the code's output). -/
def claimedPayloadC1 : String :=
  "\x7b\"nodes\":[\x7b\"name\":\"A\",\"color\":\"#fff\",\"opacity\":0.5\x7d,\x7b\"name\":\"B\",\"color\":\"#000\",\"opacity\":0.9\x7d],\"links\":[\x7b\"source\":0,\"target\":1,\"value\":3,\"opacity\":0.5,\"color\":\"#fff\"\x7d]\x7d"

/-- The payload the code actually produces on claim C1's input: the same
object, but node entries are separated by `"}, "` (comma and space), the
node array keeps a trailing comma before `]`, and a space precedes
`"links"`. -/
def actualPayloadC1 : String :=
  "\x7b\"nodes\":[\x7b\"name\":\"A\",\"color\":\"#fff\",\"opacity\":0.5\x7d, \x7b\"name\":\"B\",\"color\":\"#000\",\"opacity\":0.9\x7d,], \"links\":[\x7b\"source\":0,\"target\":1,\"value\":3,\"opacity\":0.5,\"color\":\"#fff\"\x7d]\x7d"

/-- The edge table used to exhibit claim C2's failure. -/
def dfC2 : Frame := ⟨1, some ["A"], some ["B"], some [mkRat 3 1], none, none, none, none, none⟩

/-- Claim C6's edge table: `weight` column absent. -/
def dfC6 : Frame := ⟨1, some ["A"], some ["B"], none, none, none, none, none, none⟩

/-- Claim C10's augmented edge table (as `get_data_ready_for_d3` receives it
after `show` has added the id columns). -/
def dfC10 : Frame :=
  ⟨1, some ["A"], some ["B"], some [mkRat 1 1], some ["#fff"], some [mkRat 1 2], none,
    some [0], some [1]⟩

/-- A catalog whose descriptions (`"Alpha"`, `"Beta"`) differ from every
key. -/
def catC10bad : Catalog :=
  [("A", ⟨0, "Alpha", "#aaaaaa", mkRat 1 2⟩), ("B", ⟨1, "Beta", "#bbbbbb", mkRat 3 4⟩)]

/-- A catalog in which every description equals its key. -/
def catC10good : Catalog :=
  [("A", ⟨0, "A", "#aaaaaa", mkRat 1 2⟩), ("B", ⟨1, "B", "#bbbbbb", mkRat 3 4⟩)]

/-- A catalog where key `"A"`'s description is `"B"` — another existing key:
the description-based lookup then silently fetches the wrong node's
properties. -/
def catC10mix : Catalog :=
  [("A", ⟨0, "B", "#aaaaaa", mkRat 1 2⟩), ("B", ⟨1, "B", "#bbbbbb", mkRat 3 4⟩)]

/-- The link literal the payload should carry at row `i`: the row's
`source_id`, `target_id`, `weight`, `opacity` and `color` rendered through
`renderLink`, or `none` when the row (or a column) is absent. -/
def linkLitAt (df : Frame) (i : Nat) : Option String :=
  match df.source_id, df.target_id, df.weight, df.opacity, df.color with
  | some sids, some tids, some ws, some ops, some cls =>
    sids[i]?.bind fun a => tids[i]?.bind fun b => ws[i]?.bind fun w =>
      ops[i]?.bind fun o => cls[i]?.map fun c => renderLink a b w o c
  | _, _, _, _, _ => none

/-- Two-row edge table whose rows carry the same `(source, target)` pair with
different weights (claim C3's witness). -/
def dfW3 : Frame :=
  ⟨2, some ["A", "A"], some ["B", "B"], some [mkRat 1 1, mkRat 5 1], none,
    none, none, none, none⟩

/-- The frame `set_edge_properties` produces from `dfW3` with a null color
spec and scalar opacity: default opacity, pair labels, fallback colors. -/
def dfW3' : Frame :=
  { dfW3 with
    opacity := some [mkRat 8 10, mkRat 8 10],
    labels := some [0, 0],
    color := some [set_colors "tab20" "0", set_colors "tab20" "0"] }

/-- Two-row edge table for claim C4's witness. -/
def dfW4 : Frame :=
  ⟨2, some ["A", "C"], some ["B", "A"], some [mkRat 1 1, mkRat 2 1], none,
    none, none, none, none⟩

/-- Catalog for claim C4's witness; key `"C"` is deliberately absent. -/
def catW4 : Catalog :=
  [("A", ⟨0, "A", "#aaaaaa", mkRat 1 4⟩), ("B", ⟨1, "B", "#bbbbbb", mkRat 3 4⟩)]

/-- Augmented single-row frame for claim C5's witness. -/
def dfW5 : Frame :=
  ⟨1, some ["A"], some ["B"], some [mkRat 3 1], some ["#fff"],
    some [mkRat 1 2], none, some [0], some [1]⟩

/-- Catalog for claim C5's witness (descriptions equal keys). -/
def catW5 : Catalog :=
  [("A", ⟨0, "A", "#fff", mkRat 1 2⟩), ("B", ⟨1, "B", "#000", mkRat 9 10⟩)]

/-- The payload assembled from `dfW5` and `catW5`. -/
def payloadW5 : String :=
  "\x7b\"nodes\":[\x7b\"name\":\"A\",\"color\":\"#fff\",\"opacity\":0.5\x7d, \x7b\"name\":\"B\",\"color\":\"#000\",\"opacity\":0.9\x7d,], \"links\":[\x7b\"source\":0,\"target\":1,\"value\":3,\"opacity\":0.5,\"color\":\"#fff\"\x7d]\x7d"

/-- Two-row edge table for claim C7's witness. -/
def dfW7 : Frame :=
  ⟨2, some ["A", "B"], some ["B", "C"], some [mkRat 1 1, mkRat 2 1], none,
    none, none, none, none⟩

/-- Single-row frame whose target key `"C"` is missing from `catW8`
(claim C8's witness). -/
def dfW8 : Frame :=
  ⟨1, some ["A"], some ["C"], some [mkRat 1 1], some ["#fff"],
    some [mkRat 1 2], none, none, none⟩

/-- One-key catalog for claim C8's witness. -/
def catW8 : Catalog := [("A", ⟨0, "A", "#fff", mkRat 1 2⟩)]

/-- Two-row edge table with no opacity column for claim C9's witness. -/
def dfW9 : Frame :=
  ⟨2, some ["A", "B"], some ["B", "C"], some [mkRat 1 1, mkRat 2 1], none,
    none, none, none, none⟩

/-! ### Helper lemmas -/

theorem zipWith_getElem? {α β γ : Type} (f : α → β → γ) :
    ∀ (as : List α) (bs : List β) (i : Nat),
      (List.zipWith f as bs)[i]? = as[i]?.bind fun a => (bs[i]?).map (f a) := by
  intro as
  induction as with
  | nil => intro bs i; simp
  | cons a as ih =>
    intro bs i
    cases bs with
    | nil => simp
    | cons b bs =>
      cases i with
      | zero => simp
      | succ i => simpa using ih bs i

theorem replicate_getElem? {α : Type} (n : Nat) (a : α) :
    ∀ i, (List.replicate n a)[i]? = if i < n then some a else none := by
  induction n with
  | zero => intro i; simp
  | succ n ih =>
    intro i
    cases i with
    | zero => simp
    | succ i =>
      rw [List.replicate_succ, List.getElem?_cons_succ, ih i]
      simp [Nat.succ_lt_succ_iff]

theorem catGet_eq_none_of_not_mem {cat : Catalog} {k : String}
    (h : k ∉ cat.map Prod.fst) : catGet cat k = none := by
  induction cat with
  | nil => rfl
  | cons kp rest ih =>
    obtain ⟨k₀, p₀⟩ := kp
    simp only [List.map_cons, List.mem_cons, not_or] at h
    unfold catGet
    rw [if_neg h.1]
    exact ih h.2

theorem mapO_eq_none_of_mem {α β : Type} {f : α → Option β} {l : List α}
    {a : α} (ha : a ∈ l) (hfa : f a = none) : mapO f l = none := by
  induction l with
  | nil => cases ha
  | cons b bs ih =>
    rcases List.mem_cons.mp ha with h | h
    · subst h; unfold mapO; rw [hfa]
    · unfold mapO
      rw [ih h]
      cases f b <;> rfl

theorem pre_processing_ok {df df' : Frame}
    (h : pre_processing df = .ok df') : df' = df := by
  unfold pre_processing at h
  split at h
  · exact (Except.ok.injEq _ _).mp h |>.symm
  · exact absurd h (by simp)

theorem opacityElse_fields (df : Frame) (c : ColorSpec) :
    (opacityElse df c).source = df.source ∧
    (opacityElse df c).target = df.target ∧
    (opacityElse df c).weight = df.weight ∧
    (opacityElse df c).color = df.color ∧
    (opacityElse df c).n = df.n := by
  unfold opacityElse
  split <;> exact ⟨rfl, rfl, rfl, rfl, rfl⟩

theorem nodeOpacity_fields {df df' : Frame} {s : String} {cat : Catalog}
    (h : nodeOpacity df s cat = .ok df') :
    df'.source = df.source ∧ df'.target = df.target ∧
    df'.weight = df.weight ∧ df'.color = df.color ∧ df'.n = df.n := by
  unfold nodeOpacity at h
  split at h
  · cases h; exact ⟨rfl, rfl, rfl, rfl, rfl⟩
  · split at h
    · cases h; exact ⟨rfl, rfl, rfl, rfl, rfl⟩
    · exact absurd h (by simp)

theorem opacityStage_fields {df df' : Frame} {c : ColorSpec} {o : OpacSpec}
    {nds : Option Catalog} (h : opacityStage df c o nds = .ok df') :
    df'.source = df.source ∧ df'.target = df.target ∧
    df'.weight = df.weight ∧ df'.color = df.color ∧ df'.n = df.n := by
  unfold opacityStage at h
  split at h
  · split at h
    · exact absurd h (by simp)
    · cases h; exact opacityElse_fields df c
  · split at h
    · cases h; exact ⟨rfl, rfl, rfl, rfl, rfl⟩
    · cases h; exact opacityElse_fields df c
  · split at h
    · exact nodeOpacity_fields h
    · cases h; exact opacityElse_fields df c
  · cases h; exact opacityElse_fields df c
  · cases h; exact ⟨rfl, rfl, rfl, rfl, rfl⟩

theorem mapO_forall_isSome {α β : Type} {f : α → Option β} :
    ∀ {l : List α} {bs : List β}, mapO f l = some bs → ∀ a ∈ l, (f a).isSome := by
  intro l
  induction l with
  | nil => intro bs _ a ha; cases ha
  | cons c cs ih =>
    intro bs h a ha
    unfold mapO at h
    cases hfc : f c with
    | none => rw [hfc] at h; exact absurd h (by simp)
    | some b =>
      rw [hfc] at h
      cases hm : mapO f cs with
      | none => rw [hm] at h; exact absurd h (by simp)
      | some bs' =>
        rcases List.mem_cons.mp ha with rfl | h'
        · rw [hfc]; rfl
        · exact ih hm a h'

theorem mapE_ok_length {α β : Type} {f : α → Except Err β} :
    ∀ {l : List α} {bs : List β}, mapE f l = .ok bs → bs.length = l.length := by
  intro l
  induction l with
  | nil =>
    intro bs h
    unfold mapE at h
    cases h; rfl
  | cons a as ih =>
    intro bs h
    unfold mapE at h
    cases hfa : f a with
    | error e => rw [hfa] at h; exact absurd h (by simp)
    | ok b =>
      rw [hfa] at h
      cases hm : mapE f as with
      | error e => rw [hm] at h; exact absurd h (by simp)
      | ok bs' =>
        rw [hm] at h
        cases h
        simpa using ih hm

theorem zip5_getElem? {α₁ α₂ α₃ α₄ α₅ : Type} :
    ∀ (as : List α₁) (bs : List α₂) (cs : List α₃) (ds : List α₄)
      (es : List α₅) (i : Nat),
      (zip5 as bs cs ds es)[i]?
        = as[i]?.bind fun a => bs[i]?.bind fun b => cs[i]?.bind fun c =>
            ds[i]?.bind fun d => es[i]?.map fun e => (a, b, c, d, e) := by
  intro as
  induction as with
  | nil => intro bs cs ds es i; simp [zip5]
  | cons a as ih =>
    intro bs cs ds es i
    cases bs with
    | nil => simp [zip5]
    | cons b bs =>
      cases cs with
      | nil => simp [zip5]
      | cons c cs =>
        cases ds with
        | nil => simp [zip5]
        | cons d ds =>
          cases es with
          | nil => simp [zip5]
          | cons e es =>
            cases i with
            | zero => simp [zip5]
            | succ i => simpa [zip5] using ih bs cs ds es i

theorem nodeIdOrder_pairwise (l : List Nat) :
    List.Pairwise (· < ·) (nodeIdOrder l) := by
  have hs : List.Sorted (· ≤ ·) (nodeIdOrder l) :=
    List.sorted_insertionSort _ _
  have hn : (nodeIdOrder l).Nodup :=
    (List.perm_insertionSort _ _).nodup_iff.mpr l.nodup_dedup
  exact hs.lt_of_le hn

theorem nodeIdOrder_nodup (l : List Nat) : (nodeIdOrder l).Nodup :=
  (List.perm_insertionSort _ _).nodup_iff.mpr l.nodup_dedup

theorem linkLitsOf_getElem {df : Frame} {ls : List String}
    (h : linkLitsOf df = .ok ls) (i : Nat) : ls[i]? = linkLitAt df i := by
  unfold linkLitsOf at h
  unfold linkLitAt
  rcases hs : df.source_id with _ | sids <;> rw [hs] at h
  · exact absurd h (by simp)
  rcases ht : df.target_id with _ | tids <;> rw [ht] at h
  · exact absurd h (by simp)
  rcases hw : df.weight with _ | ws <;> rw [hw] at h
  · exact absurd h (by simp)
  rcases ho : df.opacity with _ | ops <;> rw [ho] at h
  · exact absurd h (by simp)
  rcases hc : df.color with _ | cls <;> rw [hc] at h
  · exact absurd h (by simp)
  cases h
  rw [List.getElem?_map, zip5_getElem?]
  cases hsi : sids[i]? <;> cases hti : tids[i]? <;> cases hwi : ws[i]? <;>
    cases hoi : ops[i]? <;> cases hcl : cls[i]? <;>
    simp [hsi, hti, hwi, hoi, hcl]

theorem nodeOpacity_foldl_getElem (col : List String) (i : Nat) :
    ∀ (cat : Catalog) (init : List ℚ),
      (cat.map Prod.fst).Nodup → init.length = col.length →
      (cat.foldl (fun op kp => List.zipWith
          (fun sv o => if sv = kp.1 then kp.2.opacity else o) col op) init)[i]?
        = match col[i]? with
          | some k =>
            match (catGet cat k).map NodeProps.opacity with
            | some q => some q
            | none => init[i]?
          | none => init[i]? := by
  intro cat
  induction cat with
  | nil =>
    intro init _ _
    simp only [List.foldl_nil]
    cases col[i]? <;> simp [catGet]
  | cons kp rest ih =>
    intro init hnd hlen
    obtain ⟨k₀, p₀⟩ := kp
    simp only [List.map_cons, List.nodup_cons] at hnd
    have hlen' : (List.zipWith
        (fun sv o => if sv = k₀ then p₀.opacity else o) col init).length
        = col.length := by
      rw [List.length_zipWith, hlen, Nat.min_self]
    simp only [List.foldl_cons]
    rw [ih _ hnd.2 hlen']
    cases hci : col[i]? with
    | none =>
      have hge : col.length ≤ i := by
        rcases Nat.lt_or_ge i col.length with hlt | hge
        · rw [List.getElem?_eq_getElem hlt] at hci; cases hci
        · exact hge
      have h₁ : init[i]? = none := List.getElem?_eq_none (hlen ▸ hge)
      have h₂ : (List.zipWith
          (fun sv o => if sv = k₀ then p₀.opacity else o) col init)[i]?
          = none := List.getElem?_eq_none (hlen' ▸ hge)
      rw [h₁, h₂]
    | some k =>
      have hlt : i < col.length := by
        rcases Nat.lt_or_ge i col.length with hlt | hge
        · exact hlt
        · rw [List.getElem?_eq_none hge] at hci; cases hci
      obtain ⟨o, ho⟩ : ∃ o, init[i]? = some o :=
        ⟨_, List.getElem?_eq_getElem (by omega)⟩
      have hzip : (List.zipWith
          (fun sv o => if sv = k₀ then p₀.opacity else o) col init)[i]?
          = some (if k = k₀ then p₀.opacity else o) := by
        rw [zipWith_getElem?, hci, ho]; rfl
      by_cases hk : k = k₀
      · subst hk
        have hrest : catGet rest k = none :=
          catGet_eq_none_of_not_mem (by
            intro hmem
            exact hnd.1 (by simpa using hmem))
        simp [catGet, hrest, hzip]
      · cases hcg : catGet rest k <;> simp [catGet, hk, hcg, hzip, ho]

/-! ### Claim theorems -/

/-- Claim C1 (counterexample): on the claimed catalog and single-row edge
table, the pipeline does not produce exactly the claimed payload string. -/
theorem chord_C1_counterexample : pipelineC1 ≠ Except.ok claimedPayloadC1 := by
  decide

/-- Claim C1 (amended): the pipeline produces the claimed nodes/links values
but in the code's literal wire text — node entries separated by `"}, "`,
a trailing comma closing the node array, and a space before `"links"`. -/
theorem chord_C1_amended : pipelineC1 = Except.ok actualPayloadC1 := by
  decide

/-- Claim C2 (code bug): with a per-row opacity sequence of the correct
length (here `[0.3]` for one row), `set_edge_properties` succeeds but the
resulting opacity column is the default `[0.8]`, not the supplied sequence —
the length is validated (line 65) but the sequence is never assigned,
contradicting the function's own docstring (`'[0.1, 0.75,...]: Set opacity
per edge/link.'`). -/
theorem chord_C2_code_bug :
    (set_edge_properties dfC2 (ColorSpec.str "target") (OpacSpec.seq [mkRat 3 10])
        "tab20" none).map Frame.opacity = Except.ok (some [mkRat 8 10]) ∧
    mkRat 8 10 ≠ mkRat 3 10 := by
  constructor
  · decide
  · decide

/-- Claim C6 (counterexample): on a table missing `weight`, resolution does
fail with `SchemaError`, but not before opacity computation: the opacity
stage (which runs first, lines 65–85) has already assigned the whole opacity
column before `pre_processing` rejects the frame. -/
theorem chord_C6_counterexample :
    set_edge_properties dfC6 (ColorSpec.str "target") (OpacSpec.num (mkRat 8 10))
        "tab20" none = Except.error Err.schemaError ∧
    opacityStage dfC6 (ColorSpec.str "target") (OpacSpec.num (mkRat 8 10)) none
      = Except.ok { dfC6 with opacity := some [mkRat 8 10] } ∧
    dfC6.opacity = none := by
  refine ⟨by decide, by decide, rfl⟩

/-- Claim C10: node serialization looks each emitted node's description back
up as a catalog key.  When a description matches no key, node emission fails
(`lookupError`); when every description is a key, serialization succeeds; and
when key `"A"`'s description names the other key `"B"`, both emitted nodes
carry `"B"`'s color and opacity even though node id `0` belongs to `"A"`
(whose own color is `"#aaaaaa"`). -/
theorem chord_C10 :
    get_data_ready_for_d3 dfC10 catC10bad = Except.error Err.lookupError ∧
    (get_data_ready_for_d3 dfC10 catC10good).isOk = true ∧
    nodeEntriesOf dfC10 catC10mix
      = Except.ok [("B", "#bbbbbb", mkRat 3 4), ("B", "#bbbbbb", mkRat 3 4)] ∧
    (catGet catC10mix "A").map NodeProps.color = some "#aaaaaa" := by
  refine ⟨by decide, by decide, by decide, rfl⟩

/-- Claim C7: for every edge table and every per-row opacity sequence whose
length differs from the row count, `set_edge_properties` fails with
`ConfigurationError`, regardless of the color specification. -/
theorem chord_C7 (df : Frame) (color : ColorSpec) (l : List ℚ) (cmap : String)
    (nodes : Option Catalog) (h : l.length ≠ df.n) :
    set_edge_properties df color (OpacSpec.seq l) cmap nodes
      = .error Err.configurationError := by
  unfold set_edge_properties opacityStage
  cases nodes <;> simp [h]

/-- Witness for C7 at a concrete input: a one-element opacity sequence
against a two-row table. -/
theorem chord_C7_witness :
    [mkRat 1 2].length ≠ dfW7.n ∧
    set_edge_properties dfW7 ColorSpec.null (OpacSpec.seq [mkRat 1 2]) "tab20"
      none = .error Err.configurationError :=
  ⟨by decide, chord_C7 dfW7 ColorSpec.null [mkRat 1 2] "tab20" none (by decide)⟩

/-- Claim C9: when the color spec is a per-row sequence of matching length
and none of the opacity rules 1–4 applies (not a sequence, not null with an
existing opacity column, not a node-based string with nodes supplied, not a
numeric scalar), `set_edge_properties` leaves the frame — in particular its
opacity column — exactly as it was: the branch is a no-op. -/
theorem chord_C9 (df : Frame) (cs : List String) (opac : OpacSpec)
    (nodes : Option Catalog) (cmap : String)
    (hlen : cs.length = df.n)
    (hsrc : df.source.isSome) (htgt : df.target.isSome) (hw : df.weight.isSome)
    (hseq : ∀ l, opac ≠ OpacSpec.seq l)
    (hnum : ∀ q, opac ≠ OpacSpec.num q)
    (hnull : opac = OpacSpec.null → df.opacity = none)
    (hstr : ∀ s, opac = OpacSpec.str s →
      nodes = none ∨ (s ≠ "source" ∧ s ≠ "target")) :
    set_edge_properties df (ColorSpec.seq cs) opac cmap nodes = .ok df := by
  have hoe : opacityElse df (ColorSpec.seq cs) = df := by
    unfold opacityElse colorSeqMatch
    simp [hlen]
  have hop : opacityStage df (ColorSpec.seq cs) opac nodes = .ok df := by
    unfold opacityStage
    cases opac with
    | null =>
      cases nodes <;> simp [hnull rfl, hoe]
    | str s =>
      cases nodes with
      | none => simp [hoe]
      | some cat =>
        rcases hstr s rfl with h | h
        · cases h
        · simp [h.1, h.2, hoe]
    | num q => exact absurd rfl (hnum q)
    | seq l => exact absurd rfl (hseq l)
  have hpp : pre_processing df = .ok df := by
    unfold pre_processing
    rw [if_pos ⟨hsrc, htgt, hw⟩]
  have hcs : colorStage df (ColorSpec.seq cs) nodes cmap = .ok df := by
    unfold colorStage
    cases nodes <;> simp [hlen]
  unfold set_edge_properties
  simp only [hop, hpp, hcs]

/-- Witness for C9 at a concrete input: a matching color sequence with a
null opacity spec and no opacity column leaves the frame unchanged. -/
theorem chord_C9_witness :
    set_edge_properties dfW9 (ColorSpec.seq ["#111111", "#222222"])
      OpacSpec.null "tab20" none = .ok dfW9 :=
  chord_C9 dfW9 ["#111111", "#222222"] OpacSpec.null none "tab20" rfl rfl rfl
    rfl (fun _ h => by cases h) (fun _ h => by cases h) (fun _ => rfl)
    (fun _ h => by cases h)

/-- Claim C6 (amended): for an edge table missing one of `source`, `target`,
`weight`, `set_edge_properties` fails with `SchemaError` provided the
opacity stage itself succeeds — the failure comes after opacity resolution
(which has already run, and may have assigned the column) and before any
color computation. -/
theorem chord_C6_amended (df df₁ : Frame) (c : ColorSpec) (o : OpacSpec)
    (nds : Option Catalog) (cmap : String)
    (hmiss : df.source = none ∨ df.target = none ∨ df.weight = none)
    (hop : opacityStage df c o nds = .ok df₁) :
    set_edge_properties df c o cmap nds = .error Err.schemaError := by
  obtain ⟨hs, ht, hw, _, _⟩ := opacityStage_fields hop
  have hpp : pre_processing df₁ = .error Err.schemaError := by
    unfold pre_processing
    rcases hmiss with h | h | h <;>
      · rw [if_neg]
        intro hc
        rcases hc with ⟨h1, h2, h3⟩
        first
        | (rw [hs, h] at h1; cases h1)
        | (rw [ht, h] at h2; cases h2)
        | (rw [hw, h] at h3; cases h3)
  unfold set_edge_properties
  simp only [hop, hpp]

/-- Witness for C6 (amended): the weightless table `dfC6` with default
specs fails with `SchemaError`. -/
theorem chord_C6_witness :
    set_edge_properties dfC6 ColorSpec.null OpacSpec.null "tab20" none
      = .error Err.schemaError :=
  chord_C6_amended dfC6 (opacityElse dfC6 ColorSpec.null) ColorSpec.null
    OpacSpec.null none "tab20" (Or.inr (Or.inr rfl)) rfl

/-- Claim C4: with a node mapping supplied and `opacity = "source"` (or
`"target"`), `set_edge_properties`'s opacity stage succeeds on every edge
table carrying that endpoint column, and each row's opacity becomes the
endpoint node's opacity when the key is in the mapping, and the default
`0.8` when it is not — no other value appears. -/
theorem chord_C4 (df : Frame) (cat : Catalog) (cspec : ColorSpec) (s : String)
    (col : List String)
    (hs : s = "source" ∨ s = "target")
    (hne : cat ≠ [])
    (hnd : (cat.map Prod.fst).Nodup)
    (hcol : df.strCol s = some col)
    (hlen : col.length = df.n) :
    ∃ op, opacityStage df cspec (OpacSpec.str s) (some cat)
        = .ok { df with opacity := some op } ∧
      ∀ i : Nat, op[i]? = (col[i]?).map
        (fun k => ((catGet cat k).map NodeProps.opacity).getD (mkRat 8 10)) := by
  refine ⟨cat.foldl (fun op kp => List.zipWith
      (fun sv o => if sv = kp.1 then kp.2.opacity else o) col op)
      (List.replicate df.n (mkRat 8 10)), ?_, ?_⟩
  · rcases hs with h | h <;> subst h <;>
      simp [opacityStage, nodeOpacity, hcol]
  · intro i
    rw [nodeOpacity_foldl_getElem col i cat _ hnd
      (by rw [List.length_replicate, hlen])]
    cases hci : col[i]? with
    | none =>
      have hge : col.length ≤ i := by
        rcases Nat.lt_or_ge i col.length with hlt | hge
        · rw [List.getElem?_eq_getElem hlt] at hci; cases hci
        · exact hge
      rw [replicate_getElem?, if_neg (by omega)]
      rfl
    | some k =>
      have hlt : i < col.length := by
        rcases Nat.lt_or_ge i col.length with hlt | hge
        · exact hlt
        · rw [List.getElem?_eq_none hge] at hci; cases hci
      cases hcg : catGet cat k with
      | none => simp [hcg, replicate_getElem?, hlen ▸ hlt]
      | some p => simp [hcg]

/-- Witness for C4 at a concrete input: source keys `"A"` (in the catalog)
and `"C"` (absent, so it keeps the default `0.8`). -/
theorem chord_C4_witness :
    ∃ op, opacityStage dfW4 ColorSpec.null (OpacSpec.str "source") (some catW4)
        = .ok { dfW4 with opacity := some op } ∧
      ∀ i : Nat, op[i]? = ((["A", "C"] : List String)[i]?).map
        (fun k => ((catGet catW4 k).map NodeProps.opacity).getD (mkRat 8 10)) :=
  chord_C4 dfW4 catW4 ColorSpec.null "source" ["A", "C"] (Or.inl rfl)
    (by decide) (by decide) rfl rfl

/-- Claim C8: whenever some edge endpoint key is absent from the node
catalog, `show`'s id resolution fails with `LookupError` — no silent
default is substituted. -/
theorem chord_C8 (df : Frame) (labels : Catalog) (src tgt : List String)
    (k : String)
    (hsrc : df.source = some src) (htgt : df.target = some tgt)
    (hk : k ∈ src ++ tgt) (hmiss : catGet labels k = none) :
    «show» df labels = .error Err.lookupError := by
  unfold «show»
  simp only [hsrc, htgt]
  have hfk : (fun x => (catGet labels x).map NodeProps.id) k = none := by
    simp [hmiss]
  rcases List.mem_append.mp hk with h | h
  · simp [@mapO_eq_none_of_mem String Nat
      (fun x => (catGet labels x).map NodeProps.id) src k h hfk]
  · cases hms : mapO (fun x => (catGet labels x).map NodeProps.id) src with
    | none => rfl
    | some sids =>
      simp [hms, @mapO_eq_none_of_mem String Nat
        (fun x => (catGet labels x).map NodeProps.id) tgt k h hfk]

/-- Witness for C8 at a concrete input: the target key `"C"` is not in the
one-key catalog. -/
theorem chord_C8_witness :
    «show» dfW8 catW8 = .error Err.lookupError :=
  chord_C8 dfW8 catW8 ["A"] ["C"] "C" rfl rfl (by decide) (by decide)

/-- Claim C3: with the color spec unset and no pre-existing color column,
whenever `set_edge_properties` succeeds, any two rows carrying the same
`(source, target)` pair receive the same resolved color — the fallback
assigns colors as a function of the pair's label alone, independent of
weight and row position. -/
theorem chord_C3 (df df' : Frame) (opac : OpacSpec) (cmap : String)
    (nodes : Option Catalog) (src tgt : List String) (i j : Nat)
    (hsrc : df.source = some src) (htgt : df.target = some tgt)
    (hnocol : df.color = none)
    (hok : set_edge_properties df ColorSpec.null opac cmap nodes = .ok df')
    (hij1 : src[i]? = src[j]?) (hij2 : tgt[i]? = tgt[j]?) :
    ∃ cc, df'.color = some cc ∧ cc[i]? = cc[j]? := by
  unfold set_edge_properties at hok
  cases hop : opacityStage df ColorSpec.null opac nodes with
  | error e => simp only [hop] at hok; exact absurd hok (by simp)
  | ok df₁ =>
    simp only [hop] at hok
    obtain ⟨h1, h2, _, h4, _⟩ := opacityStage_fields hop
    cases hpp : pre_processing df₁ with
    | error e => simp only [hpp] at hok; exact absurd hok (by simp)
    | ok df₂ =>
      simp only [hpp] at hok
      rw [pre_processing_ok hpp] at hok
      have hnone : df₁.color.isSome = false := by rw [h4, hnocol]; rfl
      have hcs : colorStage df₁ ColorSpec.null nodes cmap
          = colorFallback df₁ cmap := by
        unfold colorStage
        cases nodes <;> simp [hnone]
      rw [hcs] at hok
      unfold colorFallback at hok
      simp only [h1, hsrc, h2, htgt] at hok
      injection hok with hok'
      subst hok'
      refine ⟨_, rfl, ?_⟩
      have hz : ∀ m : Nat, (src.zip tgt)[m]?
          = src[m]?.bind fun a => (tgt[m]?).map (Prod.mk a) := by
        intro m
        exact zipWith_getElem? Prod.mk src tgt m
      simp only [List.getElem?_map]
      rw [hz i, hz j, hij1, hij2]

/-- Witness for C3 at a concrete input: two rows with the same pair and
different weights get the same fallback color. -/
theorem chord_C3_witness :
    ∃ cc, dfW3'.color = some cc ∧ cc[0]? = cc[1]? :=
  chord_C3 dfW3 dfW3' (OpacSpec.num (mkRat 8 10)) "tab20" none ["A", "A"]
    ["B", "B"] 0 1 rfl rfl rfl (by decide) rfl rfl

/-- Claim C5: whenever the payload assembly succeeds on an edge table whose
endpoint keys all appear in the catalog, the emitted node ids are strictly
increasing with no duplicates (one entry per unique id), and the link
literals follow the input row order (the `i`-th literal is built from the
`i`-th row). -/
theorem chord_C5 (df : Frame) (labels : Catalog) (X : String)
    (src tgt : List String)
    (hsrc : df.source = some src) (htgt : df.target = some tgt)
    (hall : ∀ k ∈ src ++ tgt, (catGet labels k).isSome)
    (hX : get_data_ready_for_d3 df labels = .ok X) :
    ∃ ids entries ls,
      listIdOf df labels = .ok ids ∧
      List.Pairwise (· < ·) (nodeIdOrder ids) ∧
      (nodeIdOrder ids).Nodup ∧
      nodeEntriesOf df labels = .ok entries ∧
      entries.length = (nodeIdOrder ids).length ∧
      linkLitsOf df = .ok ls ∧
      (∀ i : Nat, ls[i]? = linkLitAt df i) ∧
      X = renderPayload entries ls := by
  unfold get_data_ready_for_d3 at hX
  cases he : nodeEntriesOf df labels with
  | error e => simp only [he] at hX; exact absurd hX (by simp)
  | ok es =>
    simp only [he] at hX
    cases hl : linkLitsOf df with
    | error e => simp only [hl] at hX; exact absurd hX (by simp)
    | ok ls =>
      simp only [hl] at hX
      injection hX with hX'
      have he0 := he
      unfold nodeEntriesOf at he0
      cases hid : listIdOf df labels with
      | error e => simp only [hid] at he0; exact absurd he0 (by simp)
      | ok ids =>
        simp only [hid] at he0
        cases hnm : listNameOf df labels with
        | error e => simp only [hnm] at he0; exact absurd he0 (by simp)
        | ok names =>
          simp only [hnm] at he0
          refine ⟨ids, es, ls, rfl, nodeIdOrder_pairwise ids,
            nodeIdOrder_nodup ids, rfl, ?_, rfl, ?_, hX'.symm⟩
          · have hlen := mapE_ok_length he0
            simpa [uniqueIdx] using hlen
          · intro i
            exact linkLitsOf_getElem hl i

/-- Witness for C5 at a concrete input: the one-row augmented frame `dfW5`
with the two-node catalog `catW5`. -/
theorem chord_C5_witness :
    ∃ ids entries ls,
      listIdOf dfW5 catW5 = .ok ids ∧
      List.Pairwise (· < ·) (nodeIdOrder ids) ∧
      (nodeIdOrder ids).Nodup ∧
      nodeEntriesOf dfW5 catW5 = .ok entries ∧
      entries.length = (nodeIdOrder ids).length ∧
      linkLitsOf dfW5 = .ok ls ∧
      (∀ i : Nat, ls[i]? = linkLitAt dfW5 i) ∧
      payloadW5 = renderPayload entries ls :=
  chord_C5 dfW5 catW5 payloadW5 ["A"] ["B"] rfl rfl (by decide) (by decide)

end Chord
